import Mathlib

/-!
Verification development for the snowflake entity mapper pipeline
(src/snowflake_entity_mapper.py).  The script loads an input table of
identifier pairs, bulk-fetches two remote datasets (Pitchbook
COMPANY_DATA_FEED and Voldemort VOLDEMORT_FIRMOGRAPHICS), joins the fetched
records back onto the input rows with a fallback identifier matcher, and
writes one widened output row per input row.

The embedding below models pandas DataFrames as tables of labelled string
cells, Python dicts as association lists with replace-on-insert, and the
string normalisations (strip, lstrip, isdigit, int round-trip,
replace-quote, lower, startswith, slicing) as functions on the character
lists underlying strings.  Remote queries are modelled by an
Except-valued oracle handed to the fetchers: ok carries the fetched table,
error a transport or query failure.
-/

/-- Whitespace test used by the strip embedding. -/
def pyIsSpace (c : Char) : Bool := c.isWhitespace

/-- Embedding of Python str.strip(): remove leading and trailing whitespace. -/
def pyStrip (s : String) : String :=
  String.mk (((s.data.dropWhile pyIsSpace).reverse.dropWhile pyIsSpace).reverse)

/-- Embedding of Python str.lstrip on the single character 0: remove every
leading zero character. -/
def lstripZeros (s : String) : String :=
  String.mk (s.data.dropWhile (fun c => c == '0'))

/-- Embedding of Python str.isdigit(): nonempty and all characters are digits. -/
def pyIsDigit (s : String) : Bool := !s.data.isEmpty && s.data.all Char.isDigit

/-- Numeric value of a decimal digit string, as Python int() computes it. -/
def digitsToNat (s : String) : Nat :=
  s.data.foldl (fun n c => 10 * n + (c.toNat - 48)) 0

/-- Embedding of Python str(int(s)) on a digit-only string s: the canonical
decimal form with leading zeros removed. -/
def pyIntStr (s : String) : String := toString (digitsToNat s)

/-- The single-quote character (code point 39). -/
def squote : Char := Char.ofNat 39

/-- Embedding of Python s.replace applied to the single-quote character with
the empty replacement: drop every single quote from s. -/
def stripQuotes (s : String) : String :=
  String.mk (s.data.filter (fun c => c != squote))

/-- Embedding of Python str.lower(). -/
def pyLower (s : String) : String := String.mk (s.data.map Char.toLower)

/-- Embedding of Python str.startswith. -/
def pyStartswith (s pre : String) : Bool := pre.data.isPrefixOf s.data

/-- Embedding of Python slicing s[n:]. -/
def pyDropChars (s : String) (n : Nat) : String := String.mk (s.data.drop n)

/-- Wrap an identifier in single quotes for the SQL IN-list. -/
def quoteWrap (s : String) : String := String.mk (squote :: (s.data ++ [squote]))

/-- A fetched record: a pandas row viewed as a dict from column label to cell
value (the script stringifies every cell it touches, so cells are strings). -/
abbrev Row := List (String × String)

/-- Embedding of Python row.get(col, default empty string) on a record. -/
def rowGet (r : Row) (c : String) : String :=
  match r.find? (fun p => p.1 == c) with
  | some p => p.2
  | none => ""

/-- A fetched dataset: a DataFrame with labelled columns and one record per
fetched row. -/
structure Table where
  cols : List String
  rows : List Row
  deriving DecidableEq

/-- Embedding of pandas DataFrame.empty: some axis has length zero. -/
def Table.isEmpty (t : Table) : Bool := t.rows.isEmpty || t.cols.isEmpty

/-- The empty DataFrame returned by failed or skipped queries. -/
def Table.empty : Table := { cols := [], rows := [] }

/-- The loaded input spreadsheet: columns are positional, cells are read as
strings (astype str). -/
structure InputTable where
  cols : List String
  rows : List (List String)
  deriving DecidableEq

/-- A Python dict from identifier key to fetched record. -/
abbrev Dict := List (String × Row)

/-- Embedding of Python dict assignment d[k] = v: replaces any previous
binding of k. -/
def dictInsert (m : Dict) (k : String) (v : Row) : Dict :=
  m.filter (fun p => p.1 != k) ++ [(k, v)]

/-- Embedding of Python dict lookup d[k]. -/
def dictFind (m : Dict) (k : String) : Option Row :=
  (m.find? (fun p => p.1 == k)).map (fun p => p.2)

/-- Embedding of the Python membership test k in d. -/
def dictContains (m : Dict) (k : String) : Bool := (dictFind m k).isSome

/-- Build a lookup dict from the fetched rows in iteration order, keyed by
keyOf (create_complete_csv lines 198-201 and 222-225). -/
def buildDict (rows : List Row) (keyOf : Row → String) : Dict :=
  rows.foldl (fun m r => dictInsert m (keyOf r) r) []

/-- Pitchbook lookup map: key = str(row.get(COMPANY_ID, empty)), unmodified. -/
def pbDict (t : Table) : Dict := buildDict t.rows (fun r => rowGet r "COMPANY_ID")

/-- Voldemort lookup map: key = str(row.get(BQ_ID, empty)).strip(). -/
def vdDict (t : Table) : Dict :=
  buildDict t.rows (fun r => pyStrip (rowGet r "BQ_ID"))

/-- The fallback matching chain of create_complete_csv (lines 236-243): exact
match of the trimmed identifier, then match after stripping leading zeros,
then, for digit-only identifiers, match after an integer round-trip; the
first strategy that hits the dict wins. -/
def vd_matched_id (d : Dict) (vd_id : String) : Option String :=
  if dictContains d vd_id then some vd_id
  else if dictContains d (lstripZeros vd_id) then some (lstripZeros vd_id)
  else if pyIsDigit vd_id && dictContains d (pyIntStr vd_id) then some (pyIntStr vd_id)
  else none

/-- Cell attached for one Voldemort output column: the matched record's value,
or the empty string placeholder when no strategy matched (lines 230, 245-249). -/
def vdValue (vd : Table) (key c : String) : String :=
  match vd_matched_id (vdDict vd) key with
  | some m => rowGet ((dictFind (vdDict vd) m).getD []) c
  | none => ""

/-- Cell attached for one Pitchbook output column: exact dict lookup only, or
the empty string placeholder (lines 206, 209-215). -/
def pbValue (pb : Table) (key c : String) : String :=
  match dictFind (pbDict pb) key with
  | some r => rowGet r c
  | none => ""

/-- One output row of create_complete_csv: the two echoed identifiers (the
second with quotes removed, line 189), then, for each non-empty dataset, all
of its columns under the dataset tag.  The Voldemort lookup key is the echoed
bq_id, trimmed (line 234). -/
def mergedRow (pb vd : Table) (inRow : List String) : Row :=
  let pid := inRow.getD 0 ""
  let bq := stripQuotes (inRow.getD 1 "")
  [("pitchbook_id", pid), ("bq_id", bq)]
    ++ (if pb.isEmpty then [] else pb.cols.map (fun c => ("pb_" ++ c, pbValue pb pid c)))
    ++ (if vd.isEmpty then [] else vd.cols.map (fun c => ("vd_" ++ c, vdValue vd (pyStrip bq) c)))

/-- Output header of create_complete_csv: the two identifier columns, then the
tagged columns of each dataset that arrived non-empty (lines 204-206, 228-230). -/
def outputCols (pb vd : Table) : List String :=
  ["pitchbook_id", "bq_id"]
    ++ (if pb.isEmpty then [] else pb.cols.map (fun c => "pb_" ++ c))
    ++ (if vd.isEmpty then [] else vd.cols.map (fun c => "vd_" ++ c))

/-- Embedding of create_complete_csv (lines 179-271): none models the False
return for an input with fewer than two columns; otherwise the merged table,
one row per input row in input order. -/
def create_complete_csv (input : InputTable) (pb vd : Table) : Option Table :=
  if input.cols.length < 2 then none
  else some { cols := outputCols pb vd, rows := input.rows.map (mergedRow pb vd) }

/-- Identifier preparation of get_pitchbook_data (line 112): keep identifiers
that are nonempty and nonblank after trimming, quote-wrap the trimmed form.
No quote stripping and no nan/none/null filtering happens here. -/
def pitchbook_formatted_ids (ids : List String) : List String :=
  (ids.filter (fun s => !(s == "") && !(pyStrip s == ""))).map
    (fun s => quoteWrap (pyStrip s))

/-- The keep test of get_voldemort_data (line 141): the identifier is
nonempty, nonblank after trimming, and not equal (case-insensitively) to
nan, none or null. -/
def voldemort_keep (s : String) : Bool :=
  !(s == "") && !(pyStrip s == "") &&
    !((pyLower (pyStrip s) == "nan") || (pyLower (pyStrip s) == "none") ||
      (pyLower (pyStrip s) == "null"))

/-- Identifier preparation of get_voldemort_data (lines 139-143): keep
identifiers passing the keep test; quote-wrap the trimmed form with embedded
quotes removed. -/
def voldemort_formatted_ids (ids : List String) : List String :=
  ids.filterMap (fun s =>
    if voldemort_keep s then some (quoteWrap (stripQuotes (pyStrip s)))
    else none)

/-- Embedding of execute_query (lines 83-104): a failing query is logged and
an empty DataFrame is returned; the exception never propagates. -/
def execute_query (remote : Except String Table) : Table :=
  match remote with
  | Except.ok t => t
  | Except.error _ => Table.empty

/-- Column renaming of get_voldemort_data (line 173): drop one leading vd_
tag from a column label, leave other labels unchanged. -/
def stripVd (c : String) : String :=
  if pyStartswith c "vd_" then pyDropChars c 3 else c

/-- Renaming the columns of a DataFrame relabels every record field. -/
def stripVdTable (t : Table) : Table :=
  { cols := t.cols.map stripVd,
    rows := t.rows.map (fun r => r.map (fun p => (stripVd p.1, p.2))) }

/-- Embedding of get_pitchbook_data (lines 106-131): empty result without a
query when no identifier survives preparation, otherwise the oracle's answer
through execute_query. -/
def get_pitchbook_data (ids : List String) (remote : Except String Table) : Table :=
  if ids.isEmpty then Table.empty
  else if (pitchbook_formatted_ids ids).isEmpty then Table.empty
  else execute_query remote

/-- Embedding of get_voldemort_data (lines 133-176): as for Pitchbook, but a
non-empty result has one leading vd_ tag stripped from every column label. -/
def get_voldemort_data (ids : List String) (remote : Except String Table) : Table :=
  if ids.isEmpty then Table.empty
  else if (voldemort_formatted_ids ids).isEmpty then Table.empty
  else
    let result := execute_query remote
    if result.isEmpty then result else stripVdTable result

/-- Outcome of one pipeline invocation: process exit status, number of remote
queries issued, and the produced output table when one was written. -/
structure RunResult where
  exitCode : Nat
  queriesIssued : Nat
  output : Option Table
  deriving DecidableEq

/-- Queries issued by get_pitchbook_data: none when no identifier survives
preparation, otherwise the single bulk query. -/
def pitchbook_queries (ids : List String) : Nat :=
  if ids.isEmpty || (pitchbook_formatted_ids ids).isEmpty then 0 else 1

/-- Queries issued by get_voldemort_data: the bulk query, plus the diagnostic
row-count query fired when the bulk query comes back empty (lines 163-169). -/
def voldemort_queries (ids : List String) (remote : Except String Table) : Nat :=
  if ids.isEmpty || (voldemort_formatted_ids ids).isEmpty then 0
  else if (execute_query remote).isEmpty then 2 else 1

/-- Embedding of main (lines 284-325): the column-count guard raises before
any remote call and the run exits with status 1; otherwise both fetchers run
and create_complete_csv decides the exit status. -/
def main_run (input : InputTable) (pbRemote vdRemote : Except String Table) :
    RunResult :=
  if input.cols.length < 2 then
    { exitCode := 1, queriesIssued := 0, output := none }
  else
    let pbIds := input.rows.map (fun r => r.getD 0 "")
    let vdIds := (input.rows.map (fun r => r.getD 1 "")).map stripQuotes
    let pb := get_pitchbook_data pbIds pbRemote
    let vd := get_voldemort_data vdIds vdRemote
    let q := pitchbook_queries pbIds + voldemort_queries vdIds vdRemote
    match create_complete_csv input pb vd with
    | some t => { exitCode := 0, queriesIssued := q, output := some t }
    | none => { exitCode := 1, queriesIssued := q, output := none }

/-! Helper lemmas about the embedding, shared by the claim theorems below. -/

/-- Looking a key up in a concatenated record skips a block where it does not
occur. -/
lemma rowGet_append_of_none (r₁ r₂ : Row) (k : String)
    (h : r₁.find? (fun p => p.1 == k) = none) :
    rowGet (r₁ ++ r₂) k = rowGet r₂ k := by
  simp [rowGet, List.find?_append, h]

/-- A block of tagged columns holds no key other than its own tagged names. -/
lemma find?_tagged_none (cols : List String) (tag : String) (v : String → String)
    (k : String) (h : ∀ c ∈ cols, tag ++ c ≠ k) :
    (cols.map (fun c => (tag ++ c, v c))).find? (fun p => p.1 == k) = none := by
  rw [List.find?_eq_none]
  intro x hx
  obtain ⟨c, hc, rfl⟩ := List.mem_map.mp hx
  simpa using h c hc

/-- String concatenation is left-cancellative. -/
lemma stringAppend_left_cancel {t a b : String} (h : t ++ a = t ++ b) : a = b := by
  have h2 : t.data ++ a.data = t.data ++ b.data := by
    simpa using congrArg String.data h
  exact String.ext (List.append_cancel_left h2)

/-- Looking up a tagged column name in its own tagged block yields its value. -/
lemma rowGet_tagged_mem (cols : List String) (tag : String) (v : String → String)
    (c : String) (hc : c ∈ cols) :
    rowGet (cols.map (fun c2 => (tag ++ c2, v c2))) (tag ++ c) = v c := by
  unfold rowGet
  cases e : (cols.map (fun c2 => (tag ++ c2, v c2))).find? (fun p => p.1 == tag ++ c) with
  | none =>
    rw [List.find?_eq_none] at e
    exact absurd (by simp : ((tag ++ c, v c).1 == tag ++ c) = true)
      (e _ (List.mem_map.mpr ⟨c, hc, rfl⟩))
  | some x =>
    have hp := List.find?_some e
    have hm := List.mem_of_find?_eq_some e
    obtain ⟨c2, _, rfl⟩ := List.mem_map.mp hm
    have : c2 = c := stringAppend_left_cancel (by simpa using hp)
    simp [this]

/-- A pb-tagged output name never collides with the first identifier column. -/
lemma pb_ne_pid (c : String) : ("pb_" ++ c) ≠ "pitchbook_id" := by
  intro h
  have h2 : ('p' :: 'b' :: '_' :: c.data) = "pitchbook_id".data := congrArg String.data h
  have h3 : "pitchbook_id".data = ['p','i','t','c','h','b','o','o','k','_','i','d'] := rfl
  rw [h3] at h2
  injection h2 with _ h4
  injection h4 with h5 _
  exact absurd h5 (by decide)

/-- A pb-tagged output name never collides with the second identifier column. -/
lemma pb_ne_bq (c : String) : ("pb_" ++ c) ≠ "bq_id" := by
  intro h
  have h2 : ('p' :: 'b' :: '_' :: c.data) = "bq_id".data := congrArg String.data h
  have h3 : "bq_id".data = ['b','q','_','i','d'] := rfl
  rw [h3] at h2
  injection h2 with h4 _
  exact absurd h4 (by decide)

/-- A vd-tagged output name never collides with the first identifier column. -/
lemma vd_ne_pid (c : String) : ("vd_" ++ c) ≠ "pitchbook_id" := by
  intro h
  have h2 : ('v' :: 'd' :: '_' :: c.data) = "pitchbook_id".data := congrArg String.data h
  have h3 : "pitchbook_id".data = ['p','i','t','c','h','b','o','o','k','_','i','d'] := rfl
  rw [h3] at h2
  injection h2 with h4 _
  exact absurd h4 (by decide)

/-- A vd-tagged output name never collides with the second identifier column. -/
lemma vd_ne_bq (c : String) : ("vd_" ++ c) ≠ "bq_id" := by
  intro h
  have h2 : ('v' :: 'd' :: '_' :: c.data) = "bq_id".data := congrArg String.data h
  have h3 : "bq_id".data = ['b','q','_','i','d'] := rfl
  rw [h3] at h2
  injection h2 with h4 _
  exact absurd h4 (by decide)

/-- The two dataset tags produce disjoint output column names. -/
lemma pb_ne_vd (c c2 : String) : ("pb_" ++ c) ≠ ("vd_" ++ c2) := by
  intro h
  have h2 : ('p' :: 'b' :: '_' :: c.data) = ('v' :: 'd' :: '_' :: c2.data) :=
    congrArg String.data h
  injection h2 with h4 _
  exact absurd h4 (by decide)

/-- Searching a tagged block for one of its own names finds the tagged pair. -/
lemma find?_tagged_mem (cols : List String) (tag : String) (v : String → String)
    (c : String) (hc : c ∈ cols) :
    (cols.map (fun c2 => (tag ++ c2, v c2))).find? (fun p => p.1 == tag ++ c)
      = some (tag ++ c, v c) := by
  cases e : (cols.map (fun c2 => (tag ++ c2, v c2))).find? (fun p => p.1 == tag ++ c) with
  | none =>
    rw [List.find?_eq_none] at e
    exact absurd (by simp : ((tag ++ c, v c).1 == tag ++ c) = true)
      (e _ (List.mem_map.mpr ⟨c, hc, rfl⟩))
  | some x =>
    have hp := List.find?_some e
    have hm := List.mem_of_find?_eq_some e
    obtain ⟨c2, _, rfl⟩ := List.mem_map.mp hm
    have h3 : c2 = c := stringAppend_left_cancel (by simpa using hp)
    rw [h3]

/-- Value of a tagged column read back from its own block. -/
lemma rowGet_tagged (cols : List String) (tag : String) (v : String → String)
    (c : String) (hc : c ∈ cols) :
    rowGet (cols.map (fun c2 => (tag ++ c2, v c2))) (tag ++ c) = v c := by
  unfold rowGet
  rw [find?_tagged_mem cols tag v c hc]

/-- Value of a tagged column read back from its block with a trailing rest. -/
lemma rowGet_tagged_first (cols : List String) (tag : String) (v : String → String)
    (c : String) (rest : Row) (hc : c ∈ cols) :
    rowGet (cols.map (fun c2 => (tag ++ c2, v c2)) ++ rest) (tag ++ c) = v c := by
  unfold rowGet
  rw [List.find?_append, find?_tagged_mem cols tag v c hc]
  rfl

/-- The first output cell of a merged row echoes the first input column. -/
lemma mergedRow_pid (pb vd : Table) (r : List String) :
    rowGet (mergedRow pb vd r) "pitchbook_id" = r.getD 0 "" := by
  simp [mergedRow, rowGet, List.find?]

/-- The bq_id output cell is the second input column with quotes removed. -/
lemma mergedRow_bq (pb vd : Table) (r : List String) :
    rowGet (mergedRow pb vd r) "bq_id" = stripQuotes (r.getD 1 "") := by
  simp [mergedRow, rowGet, List.find?]

/-- A Voldemort output cell of a merged row is the fallback-chain lookup of the
trimmed, quote-stripped secondary identifier. -/
lemma mergedRow_vd (pb vd : Table) (r : List String) (c : String)
    (hvd : vd.isEmpty = false) (hc : c ∈ vd.cols) :
    rowGet (mergedRow pb vd r) ("vd_" ++ c)
      = vdValue vd (pyStrip (stripQuotes (r.getD 1 ""))) c := by
  have h1 : ("pitchbook_id" == "vd_" ++ c) = false := by
    rw [beq_eq_false_iff_ne]; exact Ne.symm (vd_ne_pid c)
  have h2 : ("bq_id" == "vd_" ++ c) = false := by
    rw [beq_eq_false_iff_ne]; exact Ne.symm (vd_ne_bq c)
  unfold mergedRow
  rw [List.append_assoc, rowGet_append_of_none, rowGet_append_of_none]
  · rw [hvd]
    simp only [Bool.false_eq_true, if_false]
    exact rowGet_tagged vd.cols "vd_" _ c hc
  · cases hpb : pb.isEmpty with
    | true => simp
    | false =>
      simp only [Bool.false_eq_true, if_false]
      exact find?_tagged_none pb.cols "pb_" _ _ (fun c2 _ => pb_ne_vd c2 c)
  · simp [List.find?, h1, h2]

/-- A Pitchbook output cell of a merged row is the exact lookup of the
unmodified primary identifier. -/
lemma mergedRow_pb (pb vd : Table) (r : List String) (c : String)
    (hpb : pb.isEmpty = false) (hc : c ∈ pb.cols) :
    rowGet (mergedRow pb vd r) ("pb_" ++ c) = pbValue pb (r.getD 0 "") c := by
  have h1 : ("pitchbook_id" == "pb_" ++ c) = false := by
    rw [beq_eq_false_iff_ne]; exact Ne.symm (pb_ne_pid c)
  have h2 : ("bq_id" == "pb_" ++ c) = false := by
    rw [beq_eq_false_iff_ne]; exact Ne.symm (pb_ne_bq c)
  unfold mergedRow
  rw [List.append_assoc, rowGet_append_of_none]
  · rw [hpb]
    simp only [Bool.false_eq_true, if_false]
    exact rowGet_tagged_first pb.cols "pb_" _ c _ hc
  · simp [List.find?, h1, h2]

lemma find?_filter_ne (m : Dict) (k k2 : String) (h : k2 ≠ k) :
    (m.filter (fun p => p.1 != k)).find? (fun p => p.1 == k2)
      = m.find? (fun p => p.1 == k2) := by
  induction m with
  | nil => rfl
  | cons p m ih =>
    by_cases hpk : p.1 = k
    · have h1 : (p.1 != k) = false := by simp [hpk]
      have h2 : (p.1 == k2) = false := by
        rw [beq_eq_false_iff_ne, hpk]
        exact Ne.symm h
      simp [List.filter_cons, h1, List.find?_cons, h2, ih]
    · have h1 : (p.1 != k) = true := by simp [hpk]
      by_cases hr : p.1 = k2
      · have h2 : (p.1 == k2) = true := by simp [hr]
        simp [List.filter_cons, h1, List.find?_cons, h2]
      · have h2 : (p.1 == k2) = false := by simp [hr]
        simp [List.filter_cons, h1, List.find?_cons, h2, ih]

lemma dictFind_insert (m : Dict) (k : String) (v : Row) (k2 : String) :
    dictFind (dictInsert m k v) k2 = if k2 = k then some v else dictFind m k2 := by
  unfold dictInsert dictFind
  rw [List.find?_append]
  by_cases h : k2 = k
  · subst h
    have hnone : (m.filter (fun p => p.1 != k2)).find? (fun p => p.1 == k2) = none := by
      rw [List.find?_eq_none]
      intro x hx
      have h2 := (List.mem_filter.mp hx).2
      simp at h2 ⊢
      exact h2
    simp [hnone, List.find?]
  · rw [find?_filter_ne m k k2 h]
    have h2 : ((k : String) == k2) = false := by
      rw [beq_eq_false_iff_ne]
      exact Ne.symm h
    simp [List.find?, h2, h]

lemma buildDict_append_single (rows : List Row) (keyOf : Row → String) (r : Row) :
    buildDict (rows ++ [r]) keyOf = dictInsert (buildDict rows keyOf) (keyOf r) r := by
  unfold buildDict
  rw [List.foldl_append]
  rfl

lemma dictFind_buildDict (rows : List Row) (keyOf : Row → String) (k : String) :
    dictFind (buildDict rows keyOf) k
      = (rows.filter (fun r => keyOf r == k)).getLast? := by
  induction rows using List.reverseRecOn with
  | nil => rfl
  | append_singleton l r ih =>
    rw [buildDict_append_single, dictFind_insert]
    by_cases h : k = keyOf r
    · have h2 : (keyOf r == k) = true := by simp [h.symm]
      rw [if_pos h, List.filter_append]
      simp [List.filter_cons, h2]
    · have h2 : (keyOf r == k) = false := by
        rw [beq_eq_false_iff_ne]
        exact Ne.symm h
      rw [if_neg h, ih, List.filter_append]
      simp [List.filter_cons, h2]

lemma getD_map_of_lt {α β : Type} (f : α → β) (l : List α) (i : Nat) (d : β) (d0 : α)
    (h : i < l.length) :
    (l.map f).getD i d = f (l.getD i d0) := by
  rw [List.getD_eq_getElem?_getD, List.getD_eq_getElem?_getD, List.getElem?_map,
    List.getElem?_eq_getElem h]
  rfl

lemma startswith_vd_decomp (c : String) (h : pyStartswith c "vd_" = true) :
    c.data = 'v' :: 'd' :: '_' :: c.data.drop 3 := by
  unfold pyStartswith at h
  replace h := List.isPrefixOf_iff_prefix.mp h
  obtain ⟨t, ht⟩ := h
  rw [← ht]
  rfl

lemma vd_tag_double (c : String) :
    pyStartswith ("vd_" ++ stripVd c) "vd_vd_" = pyStartswith c "vd_vd_" := by
  by_cases h : pyStartswith c "vd_" = true
  · have hd := startswith_vd_decomp c h
    unfold stripVd
    rw [if_pos h]
    unfold pyStartswith pyDropChars
    conv_rhs => rw [hd]
    rfl
  · have hb : pyStartswith c "vd_" = false := by
      cases hc : pyStartswith c "vd_" with
      | false => rfl
      | true => exact absurd hc h
    have hr : pyStartswith c "vd_vd_" = false := by
      cases hr2 : pyStartswith c "vd_vd_" with
      | false => rfl
      | true =>
        exfalso
        unfold pyStartswith at hr2
        replace hr2 := List.isPrefixOf_iff_prefix.mp hr2
        obtain ⟨t, ht⟩ := hr2
        unfold pyStartswith at hb
        rw [← ht] at hb
        simp [List.isPrefixOf] at hb
    unfold stripVd
    rw [if_neg h, hr]
    unfold pyStartswith at hb ⊢
    have hdata : ("vd_" ++ c).data = 'v' :: 'd' :: '_' :: c.data := rfl
    rw [hdata]
    simpa [List.isPrefixOf] using hb

lemma stripVd_no_tag (c : String) (h1 : pyStartswith c "vd_" = true)
    (h2 : pyStartswith c "vd_vd_" = false) :
    pyStartswith (stripVd c) "vd_" = false := by
  have hd := startswith_vd_decomp c h1
  unfold stripVd
  rw [if_pos h1]
  unfold pyStartswith at h2
  unfold pyStartswith pyDropChars
  rw [hd] at h2
  simpa [List.isPrefixOf] using h2

/-- Destructuring a successful create_complete_csv result. -/
lemma create_some (input : InputTable) (pb vd out : Table)
    (h : create_complete_csv input pb vd = some out) :
    out.cols = outputCols pb vd ∧ out.rows = input.rows.map (mergedRow pb vd) := by
  unfold create_complete_csv at h
  by_cases hc : input.cols.length < 2
  · rw [if_pos hc] at h
    cases h
  · rw [if_neg hc] at h
    injection h with h
    rw [← h]
    exact ⟨rfl, rfl⟩

/-- Row i of a successful merge is the merged image of input row i. -/
lemma out_row (input : InputTable) (pb vd out : Table) (i : Nat)
    (h : create_complete_csv input pb vd = some out) (hi : i < input.rows.length) :
    out.rows.getD i [] = mergedRow pb vd (input.rows.getD i []) := by
  rw [(create_some input pb vd out h).2]
  exact getD_map_of_lt (mergedRow pb vd) input.rows i [] [] hi

/-- C1: the merger looks the trimmed secondary identifier up with an ordered
fallback chain, first match winning: (1) exact match, (2) match after
stripping all leading zeros, (3) for digit-only identifiers, match after an
integer round-trip to canonical decimal form; when every strategy misses,
no record is attached.  In particular an input identifier 007 matches a
secondary record keyed 7, and the full merge attaches that record. -/
theorem C1_secondary_fallback_chain :
  (∀ (d : Dict) (k : String), dictContains d k = true → vd_matched_id d k = some k) ∧
  (∀ (d : Dict) (k : String), dictContains d k = false →
    dictContains d (lstripZeros k) = true → vd_matched_id d k = some (lstripZeros k)) ∧
  (∀ (d : Dict) (k : String), dictContains d k = false →
    dictContains d (lstripZeros k) = false → pyIsDigit k = true →
    dictContains d (pyIntStr k) = true → vd_matched_id d k = some (pyIntStr k)) ∧
  (∀ (d : Dict) (k : String), dictContains d k = false →
    dictContains d (lstripZeros k) = false →
    (pyIsDigit k && dictContains d (pyIntStr k)) = false → vd_matched_id d k = none) ∧
  create_complete_csv { cols := ["pb", "bq"], rows := [["A1", "007"]] } Table.empty
      { cols := ["BQ_ID", "NAME"], rows := [[("BQ_ID", "7"), ("NAME", "Acme")]] }
    = some { cols := ["pitchbook_id", "bq_id", "vd_BQ_ID", "vd_NAME"],
             rows := [[("pitchbook_id", "A1"), ("bq_id", "007"),
                       ("vd_BQ_ID", "7"), ("vd_NAME", "Acme")]] } := by
  refine ⟨?_, ?_, ?_, ?_, by decide⟩
  · intro d k h
    simp [vd_matched_id, h]
  · intro d k h1 h2
    simp [vd_matched_id, h1, h2]
  · intro d k h1 h2 h3 h4
    simp [vd_matched_id, h1, h2, h3, h4]
  · intro d k h1 h2 h3
    simp [vd_matched_id, h1, h2, h3]

/-- Witness for C1: the second strategy of the chain fires for 007 against a
map keyed 7. -/
theorem C1_secondary_fallback_chain_witness :
    vd_matched_id [("7", [("BQ_ID", "7"), ("NAME", "Acme")])] "007"
      = some (lstripZeros "007") :=
  C1_secondary_fallback_chain.2.1 [("7", [("BQ_ID", "7"), ("NAME", "Acme")])] "007"
    (by decide) (by decide)

/-- C2: a successful merge produces exactly one output row per input row, in
input order (row i echoes input row i's first column), so the row counts
agree; merging never drops or adds rows. -/
theorem C2_row_preservation (input : InputTable) (pb vd out : Table)
    (h : create_complete_csv input pb vd = some out) :
    out.rows.length = input.rows.length ∧
    ∀ i : Nat, i < input.rows.length →
      rowGet (out.rows.getD i []) "pitchbook_id" = (input.rows.getD i []).getD 0 "" := by
  constructor
  · rw [(create_some input pb vd out h).2]
    exact List.length_map input.rows (mergedRow pb vd)
  · intro i hi
    rw [out_row input pb vd out i h hi]
    exact mergedRow_pid pb vd (input.rows.getD i [])

/-- Witness for C2 at a one-row input with both datasets empty. -/
theorem C2_row_preservation_witness :
    ({ cols := ["pitchbook_id", "bq_id"],
       rows := [[("pitchbook_id", "1"), ("bq_id", "2")]] } : Table).rows.length
      = ({ cols := ["a", "b"], rows := [["1", "2"]] } : InputTable).rows.length :=
  (C2_row_preservation { cols := ["a", "b"], rows := [["1", "2"]] } Table.empty Table.empty
    { cols := ["pitchbook_id", "bq_id"],
      rows := [[("pitchbook_id", "1"), ("bq_id", "2")]] } (by decide)).1

/-- C7: building a lookup dict from fetched rows keeps, for every key, the
last-encountered record carrying that key (no error on duplicates), and the
merge is a pure function of the fetched data, so a run with a duplicated
secondary key deterministically attaches the later record to every matching
output row, as the concrete two-duplicate example shows. -/
theorem C7_duplicate_key_last_wins :
  (∀ (rows : List Row) (keyOf : Row → String) (k : String),
     dictFind (buildDict rows keyOf) k
       = (rows.filter (fun r => keyOf r == k)).getLast?) ∧
  create_complete_csv { cols := ["a", "b"], rows := [["A", "7"], ["B", "7"]] } Table.empty
      { cols := ["BQ_ID", "NAME"],
        rows := [[("BQ_ID", "7"), ("NAME", "First")], [("BQ_ID", "7"), ("NAME", "Second")]] }
    = some { cols := ["pitchbook_id", "bq_id", "vd_BQ_ID", "vd_NAME"],
             rows := [[("pitchbook_id", "A"), ("bq_id", "7"),
                       ("vd_BQ_ID", "7"), ("vd_NAME", "Second")],
                      [("pitchbook_id", "B"), ("bq_id", "7"),
                       ("vd_BQ_ID", "7"), ("vd_NAME", "Second")]] } :=
  ⟨dictFind_buildDict, by decide⟩

/-- C9: an input with fewer than two columns makes the run exit with status 1
before any remote query is issued and without producing output. -/
theorem C9_narrow_input_fatal (input : InputTable)
    (pbRemote vdRemote : Except String Table) (h : input.cols.length < 2) :
    main_run input pbRemote vdRemote
      = { exitCode := 1, queriesIssued := 0, output := none } := by
  unfold main_run
  rw [if_pos h]

/-- Witness for C9 at a one-column input. -/
theorem C9_narrow_input_fatal_witness :
    main_run { cols := ["only"], rows := [["x"]] }
        (Except.ok Table.empty) (Except.ok Table.empty)
      = { exitCode := 1, queriesIssued := 0, output := none } :=
  C9_narrow_input_fatal { cols := ["only"], rows := [["x"]] }
    (Except.ok Table.empty) (Except.ok Table.empty) (by decide)

/-- A failing Pitchbook query yields the empty DataFrame from the fetcher. -/
lemma get_pitchbook_data_error (ids : List String) (e : String) :
    get_pitchbook_data ids (Except.error e) = Table.empty := by
  simp [get_pitchbook_data, execute_query, ite_self]

/-- A failing Voldemort query yields the empty DataFrame from the fetcher. -/
lemma get_voldemort_data_error (ids : List String) (e : String) :
    get_voldemort_data ids (Except.error e) = Table.empty := by
  simp [get_voldemort_data, execute_query, Table.isEmpty, Table.empty, ite_self]

/-- C8: a failing bulk query is absorbed: execute_query returns an empty
table instead of propagating, both fetchers hand that empty table on, and a
run over a two-column input still exits with status 0 and produces one
output row per input row, with the failed dataset's data missing. -/
theorem C8_query_failure_recovered :
  (∀ e : String, execute_query (Except.error e) = Table.empty) ∧
  (∀ (ids : List String) (e : String),
     get_pitchbook_data ids (Except.error e) = Table.empty ∧
     get_voldemort_data ids (Except.error e) = Table.empty) ∧
  (∀ (input : InputTable) (e : String) (vdRemote : Except String Table),
     2 ≤ input.cols.length →
     (main_run input (Except.error e) vdRemote).exitCode = 0 ∧
     ((main_run input (Except.error e) vdRemote).output.map (fun t => t.rows.length))
       = some input.rows.length) ∧
  (∀ (input : InputTable) (pbRemote : Except String Table) (e : String),
     2 ≤ input.cols.length →
     (main_run input pbRemote (Except.error e)).exitCode = 0 ∧
     ((main_run input pbRemote (Except.error e)).output.map (fun t => t.rows.length))
       = some input.rows.length) := by
  refine ⟨fun e => rfl,
    fun ids e => ⟨get_pitchbook_data_error ids e, get_voldemort_data_error ids e⟩, ?_, ?_⟩
  · intro input e vdR h
    have hnl : ¬ input.cols.length < 2 := by omega
    constructor
    · simp [main_run, create_complete_csv, hnl]
    · simp [main_run, create_complete_csv, hnl, List.length_map]
  · intro input pbR e h
    have hnl : ¬ input.cols.length < 2 := by omega
    constructor
    · simp [main_run, create_complete_csv, hnl]
    · simp [main_run, create_complete_csv, hnl, List.length_map]

/-- Witness for C8: a run whose Pitchbook query fails still exits 0. -/
theorem C8_query_failure_recovered_witness :
    (main_run { cols := ["a", "b"], rows := [["1", "2"]] } (Except.error "boom")
      (Except.ok Table.empty)).exitCode = 0 :=
  (C8_query_failure_recovered.2.2.1 { cols := ["a", "b"], rows := [["1", "2"]] } "boom"
    (Except.ok Table.empty) (by decide)).1

/-- Sample second-column cell containing quotes and surrounding blanks. -/
def sampleRawBq : String := String.mk [' ', squote, '0', squote, '0', '7', ' ']

/-- The same cell with the quotes removed and the blanks retained. -/
def sampleCleanBq : String := String.mk [' ', '0', '0', '7', ' ']

/-- C10: the bq_id output cell is the second input column with every single
quote removed (never the raw value when it contains quotes), and the
secondary lookup key of the same row is that quote-stripped value, trimmed;
the concrete example routes a blank-padded, quote-ridden cell through the
pipeline. -/
theorem C10_bq_id_quote_stripped :
  (∀ (input : InputTable) (pb vd out : Table) (i : Nat),
     create_complete_csv input pb vd = some out → i < input.rows.length →
     rowGet (out.rows.getD i []) "bq_id"
       = stripQuotes ((input.rows.getD i []).getD 1 "")) ∧
  (∀ (input : InputTable) (pb vd out : Table) (i : Nat) (c : String),
     create_complete_csv input pb vd = some out → i < input.rows.length →
     vd.isEmpty = false → c ∈ vd.cols →
     rowGet (out.rows.getD i []) ("vd_" ++ c)
       = vdValue vd (pyStrip (stripQuotes ((input.rows.getD i []).getD 1 ""))) c) ∧
  create_complete_csv { cols := ["a", "b"], rows := [["A", sampleRawBq]] } Table.empty
      { cols := ["BQ_ID", "NAME"], rows := [[("BQ_ID", "7"), ("NAME", "Acme")]] }
    = some { cols := ["pitchbook_id", "bq_id", "vd_BQ_ID", "vd_NAME"],
             rows := [[("pitchbook_id", "A"), ("bq_id", sampleCleanBq),
                       ("vd_BQ_ID", "7"), ("vd_NAME", "Acme")]] } := by
  refine ⟨?_, ?_, by decide⟩
  · intro input pb vd out i h hi
    rw [out_row input pb vd out i h hi]
    exact mergedRow_bq pb vd (input.rows.getD i [])
  · intro input pb vd out i c h hi hvd hc
    rw [out_row input pb vd out i h hi]
    exact mergedRow_vd pb vd (input.rows.getD i []) c hvd hc

/-- Witness for C10 at a one-row input. -/
theorem C10_bq_id_quote_stripped_witness :
    rowGet (({ cols := ["pitchbook_id", "bq_id"],
               rows := [[("pitchbook_id", "1"), ("bq_id", "2")]] } : Table).rows.getD 0 [])
        "bq_id"
      = stripQuotes ((({ cols := ["a", "b"], rows := [["1", "2"]] }
          : InputTable).rows.getD 0 []).getD 1 "") :=
  C10_bq_id_quote_stripped.1 { cols := ["a", "b"], rows := [["1", "2"]] } Table.empty
    Table.empty { cols := ["pitchbook_id", "bq_id"],
                  rows := [[("pitchbook_id", "1"), ("bq_id", "2")]] } 0 (by decide) (by decide)

/-- Sample primary identifier with a leading blank. -/
def sampleSpaced : String := String.mk [' ', '7']

/-- C6: the primary identifier is matched by exact string equality of the
as-is value — the Pitchbook cell of every output row is the exact dict
lookup of the unmodified first input column, a missing key yields the empty
placeholder and a present key the record's value — and none of the secondary
normalisations apply: identifiers 007 and (blank)7 fail against a primary
record keyed 7 in the very same run in which the secondary chain matches
them. -/
theorem C6_primary_exact_match_only :
  (∀ (input : InputTable) (pb vd out : Table) (i : Nat) (c : String),
     create_complete_csv input pb vd = some out → pb.isEmpty = false →
     i < input.rows.length → c ∈ pb.cols →
     rowGet (out.rows.getD i []) ("pb_" ++ c)
       = pbValue pb ((input.rows.getD i []).getD 0 "") c) ∧
  (∀ (pb : Table) (key c : String), dictFind (pbDict pb) key = none →
     pbValue pb key c = "") ∧
  (∀ (pb : Table) (key : String) (r : Row) (c : String),
     dictFind (pbDict pb) key = some r → pbValue pb key c = rowGet r c) ∧
  create_complete_csv { cols := ["a", "b"], rows := [["007", "007"]] }
      { cols := ["COMPANY_ID", "NAME"], rows := [[("COMPANY_ID", "7"), ("NAME", "Acme")]] }
      { cols := ["BQ_ID", "NAME"], rows := [[("BQ_ID", "7"), ("NAME", "Acme")]] }
    = some { cols := ["pitchbook_id", "bq_id", "pb_COMPANY_ID", "pb_NAME",
                      "vd_BQ_ID", "vd_NAME"],
             rows := [[("pitchbook_id", "007"), ("bq_id", "007"),
                       ("pb_COMPANY_ID", ""), ("pb_NAME", ""),
                       ("vd_BQ_ID", "7"), ("vd_NAME", "Acme")]] } ∧
  create_complete_csv { cols := ["a", "b"], rows := [[sampleSpaced, sampleSpaced]] }
      { cols := ["COMPANY_ID", "NAME"], rows := [[("COMPANY_ID", "7"), ("NAME", "Acme")]] }
      { cols := ["BQ_ID", "NAME"], rows := [[("BQ_ID", "7"), ("NAME", "Acme")]] }
    = some { cols := ["pitchbook_id", "bq_id", "pb_COMPANY_ID", "pb_NAME",
                      "vd_BQ_ID", "vd_NAME"],
             rows := [[("pitchbook_id", sampleSpaced), ("bq_id", sampleSpaced),
                       ("pb_COMPANY_ID", ""), ("pb_NAME", ""),
                       ("vd_BQ_ID", "7"), ("vd_NAME", "Acme")]] } := by
  refine ⟨?_, ?_, ?_, by decide, by decide⟩
  · intro input pb vd out i c h hpb hi hc
    rw [out_row input pb vd out i h hi]
    exact mergedRow_pb pb vd (input.rows.getD i []) c hpb hc
  · intro pb key c h
    unfold pbValue
    rw [h]
  · intro pb key r c h
    unfold pbValue
    rw [h]

/-- Witness for C6: identifier 007 finds nothing in a primary map keyed 7. -/
theorem C6_primary_exact_match_only_witness :
    pbValue { cols := ["COMPANY_ID"], rows := [[("COMPANY_ID", "7")]] } "007" "COMPANY_ID"
      = "" :=
  C6_primary_exact_match_only.2.1 { cols := ["COMPANY_ID"], rows := [[("COMPANY_ID", "7")]] }
    "007" "COMPANY_ID" (by decide)

/-- Counterexample for C3: when the primary fetch returns zero rows, the
output header holds only the two identifier columns — the pb-prefixed
columns are absent, not present as empty strings. -/
theorem C3_counterexample :
    (create_complete_csv { cols := ["a", "b"], rows := [["1", "2"]] }
        (get_pitchbook_data ["1"]
          (Except.ok { cols := ["COMPANY_ID", "NAME"], rows := [] }))
        Table.empty).map Table.cols
      = some ["pitchbook_id", "bq_id"] ∧
    "pb_COMPANY_ID" ∉ (["pitchbook_id", "bq_id"] : List String) :=
  ⟨by decide, by decide⟩

/-- C3 (amended): for a non-empty fetched dataset, a row with no matching
record gets the empty string in every column of that dataset; but a dataset
whose fetch came back empty contributes no columns at all to the output. -/
theorem C3_amended_empty_string_defaults :
  (∀ (input : InputTable) (pb vd out : Table) (c : String),
     create_complete_csv input pb vd = some out → pb.isEmpty = true →
     ("pb_" ++ c) ∉ out.cols) ∧
  (∀ (input : InputTable) (pb vd out : Table) (i : Nat) (c : String),
     create_complete_csv input pb vd = some out → pb.isEmpty = false →
     i < input.rows.length →
     dictFind (pbDict pb) ((input.rows.getD i []).getD 0 "") = none →
     c ∈ pb.cols → rowGet (out.rows.getD i []) ("pb_" ++ c) = "") ∧
  (∀ (input : InputTable) (pb vd out : Table) (i : Nat) (c : String),
     create_complete_csv input pb vd = some out → vd.isEmpty = false →
     i < input.rows.length →
     vd_matched_id (vdDict vd)
         (pyStrip (stripQuotes ((input.rows.getD i []).getD 1 ""))) = none →
     c ∈ vd.cols → rowGet (out.rows.getD i []) ("vd_" ++ c) = "") := by
  refine ⟨?_, ?_, ?_⟩
  · intro input pb vd out c h hpb hmem
    rw [(create_some input pb vd out h).1] at hmem
    unfold outputCols at hmem
    rw [hpb] at hmem
    by_cases hvd : vd.isEmpty = true
    · rw [hvd] at hmem
      simp at hmem
      rcases hmem with h1 | h1
      · exact pb_ne_pid c h1
      · exact pb_ne_bq c h1
    · have hvd2 : vd.isEmpty = false := by
        cases hv : vd.isEmpty
        · rfl
        · exact absurd hv hvd
      rw [hvd2] at hmem
      simp at hmem
      rcases hmem with h1 | h1 | ⟨c2, _, h1⟩
      · exact pb_ne_pid c h1
      · exact pb_ne_bq c h1
      · exact pb_ne_vd c c2 h1.symm
  · intro input pb vd out i c h hpb hi hfind hc
    rw [out_row input pb vd out i h hi]
    rw [mergedRow_pb pb vd (input.rows.getD i []) c hpb hc]
    unfold pbValue
    rw [hfind]
  · intro input pb vd out i c h hvd hi hmatch hc
    rw [out_row input pb vd out i h hi]
    rw [mergedRow_vd pb vd (input.rows.getD i []) c hvd hc]
    unfold vdValue
    rw [hmatch]

/-- Witness for the amended C3: a run whose primary dataset came back empty
has no pb_COMPANY_ID output column. -/
theorem C3_amended_empty_string_defaults_witness :
    ("pb_" ++ "COMPANY_ID") ∉
      ({ cols := ["pitchbook_id", "bq_id"],
         rows := [[("pitchbook_id", "1"), ("bq_id", "2")]] } : Table).cols :=
  C3_amended_empty_string_defaults.1 { cols := ["a", "b"], rows := [["1", "2"]] }
    { cols := ["COMPANY_ID"], rows := [] } Table.empty
    { cols := ["pitchbook_id", "bq_id"],
      rows := [[("pitchbook_id", "1"), ("bq_id", "2")]] }
    "COMPANY_ID" (by decide) (by decide)

/-- Counterexample for C4: the primary (Pitchbook) fetcher keeps the
identifier nan and keeps an embedded quote character in the IN-list, while
the secondary (Voldemort) fetcher drops nan. -/
theorem C4_counterexample :
    pitchbook_formatted_ids ["nan"] = [quoteWrap "nan"] ∧
    pitchbook_formatted_ids [String.mk ['a', squote, 'b']]
      = [quoteWrap (String.mk ['a', squote, 'b'])] ∧
    voldemort_formatted_ids ["nan"] = [] :=
  ⟨by decide, by decide, by decide⟩

/-- C4 (amended): the secondary fetcher trims, drops identifiers that are
blank after trimming or case-insensitively equal to nan, none or null, and
strips embedded quotes; the primary fetcher only trims and drops identifiers
blank after trimming, keeping nan/none/null and embedded quotes. -/
theorem C4_amended_identifier_preparation :
  (∀ (s : String) (ids : List String), pyStrip s = "" →
     pitchbook_formatted_ids (s :: ids) = pitchbook_formatted_ids ids) ∧
  (∀ (s : String) (ids : List String), pyStrip s ≠ "" →
     pitchbook_formatted_ids (s :: ids)
       = quoteWrap (pyStrip s) :: pitchbook_formatted_ids ids) ∧
  (∀ (s : String) (ids : List String),
     pyStrip s = "" ∨ pyLower (pyStrip s) = "nan" ∨ pyLower (pyStrip s) = "none" ∨
       pyLower (pyStrip s) = "null" →
     voldemort_formatted_ids (s :: ids) = voldemort_formatted_ids ids) ∧
  (∀ (s : String) (ids : List String), pyStrip s ≠ "" →
     pyLower (pyStrip s) ≠ "nan" → pyLower (pyStrip s) ≠ "none" →
     pyLower (pyStrip s) ≠ "null" →
     voldemort_formatted_ids (s :: ids)
       = quoteWrap (stripQuotes (pyStrip s)) :: voldemort_formatted_ids ids) := by
  refine ⟨?_, ?_, ?_, ?_⟩
  · intro s ids h
    have hcond : (!(s == "") && !(pyStrip s == "")) = false := by simp [h]
    simp [pitchbook_formatted_ids, List.filter_cons, hcond]
  · intro s ids h
    have hs : s ≠ "" := fun he => h (by rw [he]; rfl)
    have hcond : (!(s == "") && !(pyStrip s == "")) = true := by simp [h, hs]
    simp [pitchbook_formatted_ids, List.filter_cons, hcond]
  · intro s ids h
    have hcond : voldemort_keep s = false := by
      rcases h with h | h | h | h <;> simp [voldemort_keep, h]
    simp [voldemort_formatted_ids, List.filterMap_cons, hcond]
  · intro s ids h1 h2 h3 h4
    have hs : s ≠ "" := fun he => h1 (by rw [he]; rfl)
    have hcond : voldemort_keep s = true := by
      simp [voldemort_keep, h1, hs, h2, h3, h4]
    simp [voldemort_formatted_ids, List.filterMap_cons, hcond]

/-- Witness for the amended C4: a plain identifier survives secondary
preparation in its trimmed, quote-stripped, quote-wrapped form. -/
theorem C4_amended_identifier_preparation_witness :
    voldemort_formatted_ids ["7"] = [quoteWrap (stripQuotes (pyStrip "7"))] :=
  C4_amended_identifier_preparation.2.2.2 "7" []
    (by decide) (by decide) (by decide) (by decide)

/-- Secondary dataset answer whose column name arrives with a doubled tag. -/
def vdDoubledFetch : Table :=
  { cols := ["BQ_ID", "vd_vd_x"], rows := [[("BQ_ID", "7"), ("vd_vd_x", "1")]] }

/-- Counterexample for C5: a returned column named vd_vd_x loses only one
leading tag in the fetcher, so after the merger re-tags it the output header
carries the doubled name vd_vd_x. -/
theorem C5_counterexample :
    (create_complete_csv { cols := ["a", "b"], rows := [["A", "7"]] } Table.empty
        (get_voldemort_data ["7"] (Except.ok vdDoubledFetch))).map Table.cols
      = some ["pitchbook_id", "bq_id", "vd_BQ_ID", "vd_vd_x"] ∧
    pyStartswith "vd_vd_x" "vd_vd_" = true :=
  ⟨by decide, by decide⟩

/-- C5 (amended): a single leading vd_ tag is stripped from every returned
secondary column name before the merger applies its own vd_ tag; the
re-tagged name carries a doubled vd_vd_ exactly when the returned name
itself began with vd_vd_, and a returned name with one leading vd_ keeps no
stray tag after stripping, as the concrete run with columns BQ_ID and
vd_name shows. -/
theorem C5_single_strip_vs_tag :
  (∀ c : String, pyStartswith ("vd_" ++ stripVd c) "vd_vd_" = pyStartswith c "vd_vd_") ∧
  (∀ c : String, pyStartswith c "vd_" = true → pyStartswith c "vd_vd_" = false →
     pyStartswith (stripVd c) "vd_" = false) ∧
  (create_complete_csv { cols := ["a", "b"], rows := [["A", "7"]] } Table.empty
      (get_voldemort_data ["7"]
        (Except.ok { cols := ["BQ_ID", "vd_name"],
                     rows := [[("BQ_ID", "7"), ("vd_name", "Acme")]] }))).map Table.cols
    = some ["pitchbook_id", "bq_id", "vd_BQ_ID", "vd_name"] :=
  ⟨vd_tag_double, stripVd_no_tag, by decide⟩

/-- Witness for the amended C5: stripping the tag of vd_name leaves no tag. -/
theorem C5_single_strip_vs_tag_witness :
    pyStartswith (stripVd "vd_name") "vd_" = false :=
  C5_single_strip_vs_tag.2.1 "vd_name" (by decide) (by decide)
